import Mathlib

set_option maxRecDepth 4000

/-!
Verification of the IMKAN Dari document agents against their design
specification.

The definitions below are a shallow embedding of the TypeScript sources:

* `src/utils/retry.ts` (shipped as an unnamed source part): the generic
  bounded-retry wrapper `retry`.
* `src/agents/dari-site-plan-agent.ts`: the persistent application ledger
  (`loadPersistedApplications`, `savePersistedApplications`,
  `addPersistedApplication`, `updatePersistedApplicationDownloadStatus`),
  the per-plot processor `searchAndProcessPlot`, the certificate download
  poll `downloadCertificate`, the end-of-batch recovery filter of
  `processFailedDownloads`, and the login poll `waitForUAEPassApproval`.
* `src/agents/dari-affection-plan-agent.ts`: the per-plot processor
  `searchAndFilterPlot` with its batch-wide funds check, and the plot loop
  of `executeWorkflow`.

Page-intelligence observations and extractions are external,
non-deterministic collaborators; each call site classifies their results
into booleans or optional values.  The embedding supplies those classified
results through environment records whose fields are documented against
the source lines that compute them.  Monetary amounts are modelled as
rationals; page-level error strings are modelled by inductive error codes
that stand for the exact message templates of the source (the templates
interpolate runtime values, the codes carry those values as fields).
-/

/-! ## Embedding of retry.ts -/

/-- One complete run of `retry`: the value returned or the value thrown
(`Except.error none` models the `throw lastError!` executed while
`lastError` was never assigned, i.e. a thrown `undefined`), the number of
invocations of the wrapped closure `fn`, and the list of delays (in ms)
slept between attempts, in order. -/
structure RetryTrace (E A : Type) where
  result : Except (Option E) A
  calls : Nat
  sleeps : List Nat

/-- The attempt loop of `retry` (retry.ts lines 21-41).  `fn j` is the
outcome of the j-th invocation of the wrapped closure (the closure is
re-run each attempt, so successive outcomes may differ).  The first
argument of the recursion is the number of attempts still allowed
(`maxAttempts - attempt + 1`), the second is the current 1-based attempt
number.  On failure at the final attempt the loop breaks and rethrows the
last error; on failure earlier it sleeps
`delayMs * backoffMultiplier ^ (attempt - 1)` and continues. -/
def retryGo {E A : Type} (fn : Nat → Except E A) (delayMs backoff : Nat) :
    Nat → Nat → RetryTrace E A
  | 0, _ => ⟨Except.error none, 0, []⟩
  | k + 1, a =>
    match fn a with
    | Except.ok v => ⟨Except.ok v, 1, []⟩
    | Except.error e =>
      match k with
      | 0 => ⟨Except.error (some e), 1, []⟩
      | k' + 1 =>
        ⟨(retryGo fn delayMs backoff (k' + 1) (a + 1)).result,
         (retryGo fn delayMs backoff (k' + 1) (a + 1)).calls + 1,
         delayMs * backoff ^ (a - 1) ::
           (retryGo fn delayMs backoff (k' + 1) (a + 1)).sleeps⟩

/-- `retry(fn, {maxAttempts, delayMs, backoffMultiplier})` from retry.ts.
`maxAttempts` is an `Int` because the TypeScript parameter is an arbitrary
number: the loop `for (let attempt = 1; attempt <= maxAttempts; ...)`
runs `max 0 maxAttempts` times, which is `Int.toNat maxAttempts`.
The source defaults are maxAttempts = 3, delayMs = 1000, backoff = 2. -/
def retryRun {E A : Type} (fn : Nat → Except E A) (maxAttempts : Int)
    (delayMs backoff : Nat) : RetryTrace E A :=
  retryGo fn delayMs backoff maxAttempts.toNat 1

/-- Concrete outcome sequence used by the retry witnesses: attempt 2
succeeds with value 7, every other attempt fails. -/
def retryWitnessFn : Nat → Except String Nat :=
  fun j => if j = 2 then Except.ok 7 else Except.error "boom"

/-! ## Embedding of the persistent application ledger
(dari-site-plan-agent.ts lines 43-49 and 199-261) -/

/-- One durable ledger entry (interface PersistedApplicationData,
dari-site-plan-agent.ts lines 43-49). -/
structure PersistedApplicationData where
  plotNumber : String
  applicationId : String
  paymentDate : String
  downloaded : Bool
  lastChecked : String
deriving DecidableEq

/-- JavaScript `Map.set`: replace the value at an existing key in place,
otherwise append the binding at the end. -/
def mapSet {V : Type} : List (String × V) → String → V → List (String × V)
  | [], k, v => [(k, v)]
  | (k', v') :: rest, k, v =>
    if k' = k then (k, v) :: rest else (k', v') :: mapSet rest k v

/-- JavaScript `Map.get`: the value at the first matching key, if any. -/
def mapLookup {V : Type} : List (String × V) → String → Option V
  | [], _ => none
  | (k', v') :: rest, k => if k' = k then some v' else mapLookup rest k

/-- In-memory map plus the durable JSON file.  `persistedApplications`
models `this.persistedApplications : Map<string, PersistedApplicationData>`;
`storage` models the content of `data/dari-applications-history.json`
(`none` = file absent). -/
structure LedgerState where
  persistedApplications : List (String × PersistedApplicationData)
  storage : Option (List PersistedApplicationData)
deriving DecidableEq

/-- `savePersistedApplications` (lines 233-241): serializes
`Array.from(this.persistedApplications.values())` and rewrites the whole
JSON file. -/
def savePersistedApplications (s : LedgerState) : LedgerState :=
  { s with storage := some (s.persistedApplications.map Prod.snd) }

/-- `addPersistedApplication(plotNumber, applicationId, downloaded)`
(lines 243-252): unconditionally `Map.set` a fresh entry (paymentDate and
lastChecked are `new Date().toISOString()`, passed here as `now`), then
save synchronously. -/
def addPersistedApplication (s : LedgerState) (plotNumber applicationId : String)
    (downloaded : Bool) (now : String) : LedgerState :=
  savePersistedApplications
    { s with
      persistedApplications :=
        mapSet s.persistedApplications plotNumber
          ⟨plotNumber, applicationId, now, downloaded, now⟩ }

/-- `updatePersistedApplicationDownloadStatus(plotNumber, downloaded)`
(lines 254-261): if an entry exists, mutate its downloaded flag and
lastChecked timestamp and save; otherwise do nothing. -/
def updatePersistedApplicationDownloadStatus (s : LedgerState)
    (plotNumber : String) (downloaded : Bool) (now : String) : LedgerState :=
  match mapLookup s.persistedApplications plotNumber with
  | none => s
  | some existing =>
    savePersistedApplications
      { s with
        persistedApplications :=
          mapSet s.persistedApplications plotNumber
            { existing with downloaded := downloaded, lastChecked := now } }

/-- `loadPersistedApplications` (lines 199-231) on a fresh agent: missing
file gives an empty map, otherwise every parsed entry is `Map.set` keyed
by its plotNumber, in file order.  (A corrupt file also yields the empty
map; that branch is indistinguishable from `none` here.) -/
def loadPersistedApplications (storage : Option (List PersistedApplicationData)) :
    List (String × PersistedApplicationData) :=
  match storage with
  | none => []
  | some apps => apps.foldl (fun m a => mapSet m a.plotNumber a) []

/-- Well-formedness of a ledger state, true of every state the agent
constructs: each binding is keyed by its entry plotNumber, and keys are
unique. -/
def LedgerWF (s : LedgerState) : Prop :=
  (∀ p ∈ s.persistedApplications, p.2.plotNumber = p.1) ∧
    (s.persistedApplications.map Prod.fst).Nodup

/-- Ledger state used by the C3 counterexample: plot P1 already has an
entry with document-request identifier APP-OLD, durably stored. -/
def c3Entry0 : PersistedApplicationData :=
  ⟨"P1", "APP-OLD", "t0", false, "t0"⟩

/-- Ledger with an existing, persisted entry for plot P1. -/
def c3State : LedgerState :=
  ⟨[("P1", c3Entry0)], some [c3Entry0]⟩

/-- The in-memory map after a ledger mutation. -/
def ledgerMapOf (s : LedgerState) : List (String × PersistedApplicationData) :=
  s.persistedApplications

/-! ## Embedding of the site-plan per-plot processor
(dari-site-plan-agent.ts lines 51-59, 957-1550, 1699-1862, 2022-2090) -/

/-- Instrumentation events recorded by the embedding: a click of a
payment button, one pass of the regex-over-page-text extraction fallback,
and a click of a download button. -/
inductive AgentEvent
  | payClick (plotNumber : String)
  | regexFallback (plotNumber : String)
  | downloadClick (plotNumber : String)
deriving DecidableEq

/-- Error codes standing for the record.error message templates of
dari-site-plan-agent.ts.  Each constructor corresponds to one literal
template; numeric parameters of the template are carried as fields;
`seq a b` models string append with a semicolon, as in
`record.error + "; " + tail`. -/
inductive SpErr
  | notOwned
  | proceedNotFound
  | navFailedAfterProceed
  | walletOptionNotFound
  | walletNotInteractive
  | walletSelectFailed
  | payNowNotFound
  | paymentFailed
  | insufficientBalance (balance amount : ℚ)
  | extractPaymentInfoFailed
  | paymentRedirectFailed
  | certGenerationFailed
  | navErrorDuringDownloadWait
  | downloadDidNotAppear
  | downloadNeverAppeared
  | fallbackTimeoutStandalone
  | fallbackTimeoutAppended
  | seq (a b : SpErr)
deriving DecidableEq

/-- Interface SitePlanRecord (dari-site-plan-agent.ts lines 29-41). -/
structure SitePlanRecord where
  plotNumber : String
  applicationId : Option String
  rowIndex : Nat
  paid : Bool
  walletBalanceSufficient : Bool
  certificateDownloaded : Bool
  downloadedViaFallback : Bool
  downloadAttempts : Nat
  lastDownloadAttemptTime : Option String
  alreadyExistedInApplications : Bool
  error : Option SpErr
deriving DecidableEq

/-- Interface PlotData (lines 24-27). -/
structure PlotData where
  plotNumber : String
  rowIndex : Nat
deriving DecidableEq

/-- Line 57: the pre-payment checklist is hardcoded off
("Disable pre-payment checklist to avoid confusing control flow"). -/
def prePayCheckEnabled : Bool := false

/-- The fresh record built at the top of searchAndProcessPlot
(lines 966-978). -/
def initRecord (plot : PlotData) : SitePlanRecord :=
  ⟨plot.plotNumber, none, plot.rowIndex, false, false, false, false, 0, none, false, none⟩

/-- Classified page-intelligence results driving one call of
downloadCertificate (lines 1699-1862); the functions are indexed by the
1-based observation attempt number. -/
structure DownloadEnv where
  /-- line 1722: the post-payment URL contains 404 / error / not-found. -/
  startUrlError : Bool
  /-- lines 1774-1777: an element whose description contains
  error / failed / unsuccessful was observed at this attempt. -/
  obsError : Nat → Bool
  /-- lines 1758-1767: a clickable download-certificate button was
  observed at this attempt. -/
  obsDownload : Nat → Bool
  /-- lines 1834-1838: the URL changed to an error page, checked at this
  attempt after the download button was not found. -/
  urlError : Nat → Bool

/-- How the downloadCertificate observation loop exits. -/
inductive DlExit
  | errorReturn
  | found
  | urlBreak
  | capped
deriving DecidableEq

/-- Line 1738. -/
def MAX_OBSERVATIONS : Nat := 120

/-- The while loop of downloadCertificate (lines 1740-1847).  First
argument: remaining observations; second: observations used so far.  The
error indicator is checked first (line 1779: return), then the download
button (line 1791: click and break), then the URL error (line 1835:
break); otherwise sleep and continue. -/
def downloadLoop (env : DownloadEnv) : Nat → Nat → SitePlanRecord →
    SitePlanRecord × Nat × DlExit
  | 0, count, r => (r, count, DlExit.capped)
  | rem + 1, count, r =>
    if env.obsError (count + 1) then
      ({ r with error := some SpErr.certGenerationFailed }, count + 1, DlExit.errorReturn)
    else if env.obsDownload (count + 1) then
      ({ r with certificateDownloaded := true }, count + 1, DlExit.found)
    else if env.urlError (count + 1) then
      ({ r with error := some SpErr.navErrorDuringDownloadWait }, count + 1, DlExit.urlBreak)
    else downloadLoop env rem (count + 1) r

/-- Line 1855: the message appended (or set) when the loop ended without
finding the download button. -/
def appendDownloadTimeout (old : Option SpErr) : SpErr :=
  match old with
  | none => SpErr.downloadDidNotAppear
  | some e => SpErr.seq e SpErr.downloadNeverAppeared

/-- downloadCertificate (lines 1699-1862): bump the attempt counters, bail
out on an error start URL, then run the capped observation loop; on
success click download and mark the ledger entry downloaded (line 1821);
an error-indicator exit returns immediately (skipping the post-loop
message), any other exit without a download appends the
button-never-appeared message.  The function never throws (its body is
one big try/catch).  Returns (record, ledger, events, observationCount). -/
def downloadCertificate (env : DownloadEnv) (ledger : LedgerState)
    (record0 : SitePlanRecord) (now : String) :
    SitePlanRecord × LedgerState × List AgentEvent × Nat :=
  let record := { record0 with
    downloadAttempts := record0.downloadAttempts + 1,
    lastDownloadAttemptTime := some now }
  if env.startUrlError then
    ({ record with error := some SpErr.paymentRedirectFailed }, ledger, [], 0)
  else
    match downloadLoop env MAX_OBSERVATIONS 0 record with
    | (r, c, DlExit.errorReturn) => (r, ledger, [], c)
    | (r, c, DlExit.found) =>
      (r, updatePersistedApplicationDownloadStatus ledger r.plotNumber true now,
       [AgentEvent.downloadClick r.plotNumber], c)
    | (r, c, DlExit.urlBreak) =>
      ({ r with error := some (appendDownloadTimeout r.error) }, ledger, [], c)
    | (r, c, DlExit.capped) =>
      ({ r with error := some (appendDownloadTimeout r.error) }, ledger, [], c)

/-- The records the end-of-batch recovery pass iterates
(processFailedDownloads, lines 2027-2029): paid, not downloaded, with a
stored application id. -/
def processFailedDownloadsTargets (records : List SitePlanRecord) :
    List SitePlanRecord :=
  records.filter fun r => r.paid && !r.certificateDownloaded && r.applicationId.isSome

/-- Download environment for the C6 witness: an explicit error indicator
appears at attempt 3 and nothing else ever appears. -/
def c6ErrEnv : DownloadEnv :=
  ⟨false, fun j => j == 3, fun _ => false, fun _ => false⟩

/-- Download environment for the C6 witness: nothing ever appears. -/
def c6QuietEnv : DownloadEnv :=
  ⟨false, fun _ => false, fun _ => false, fun _ => false⟩

/-- A paid record with a stored application id and pending download. -/
def c6Record : SitePlanRecord :=
  ⟨"P7", some "APP-7", 7, true, true, false, false, 0, none, false, none⟩

/-- Outcome of one pass of searchAndProcessPlot over one page-state
environment.  `redirect` models the self-recursive retry at line 1121
(unexpected external payment-gateway redirect: navigate back and re-run
the whole plot); `diverges` models the unbounded
`while (!certificatePageLoaded)` wait at lines 1249-1291, which loops
forever when the payment/certificate content never appears. -/
inductive PlotStep (α : Type)
  | done (a : α)
  | redirect
  | diverges

/-- Classified page-intelligence results driving one pass of
searchAndProcessPlot (lines 957-1550). -/
structure PlotEnv where
  /-- Smart-workflow block (lines 992-1004): navigation / search /
  download threw (dead code: guarded by prePayCheckEnabled = false). -/
  smartThrows : Bool
  /-- viewAndDownloadApplication under the smart workflow: the download
  button appeared within its cap (also dead code in the shipped build). -/
  smartDownloadFound : Bool
  /-- Line 1116: the post-search URL is an external payment gateway. -/
  postSearchRedirect : Bool
  /-- Lines 1145-1149: page text or result set indicates the property is
  not found / not owned. -/
  noPropertyMessage : Bool
  /-- Lines 1221-1227: a clickable Proceed button was observed (when
  false the source throws, caught by the catch-all at line 1544). -/
  proceedFound : Bool
  /-- Lines 1249-1291: the payment/certificate content is eventually
  observed (when false the unbounded wait never terminates). -/
  certContentAppears : Bool
  /-- Line 1310: the URL after Proceed contains 404 / error. -/
  postProceedUrlError : Bool
  /-- extractApplicationId, AI part (lines 1561-1575): the validated
  extraction result, none when nothing usable came back. -/
  aiApplicationId : Option String
  /-- extractApplicationId, regex fallback part (lines 1578-1596): the
  first pattern match over the raw page text, if any. -/
  regexApplicationId : Option String
  /-- Lines 1342-1351: the DARI wallet option was observed. -/
  dariWalletFound : Bool
  /-- Lines 1356-1360: that option is clickable. -/
  dariWalletClickable : Bool
  /-- ensureDariWalletSelected (lines 902-955): DOM-verified selection. -/
  walletSelectedVerified : Bool
  /-- extractWalletBalance (lines 1605-1647) parsed as a decimal amount
  (the extractor only accepts digit patterns, so a returned string always
  parses); none when extraction failed. -/
  walletBalance : Option ℚ
  /-- extractPaymentAmount (lines 1649-1691), likewise. -/
  paymentAmount : Option ℚ
  /-- Lines 1459-1469: a clickable Pay Now button was observed. -/
  payNowFound : Bool
  /-- Lines 1510-1519: an error / failed / unsuccessful indicator was
  observed after clicking Pay Now. -/
  postPayError : Bool
  /-- Oracles for the downloadCertificate call (Step 15). -/
  download : DownloadEnv

/-- extractApplicationId (lines 1552-1603): the AI extraction result if
usable, otherwise one pass of the regex patterns over the raw page text.
The Bool reports whether the regex fallback pass ran. -/
def extractApplicationId (env : PlotEnv) : Option String × Bool :=
  match env.aiApplicationId with
  | some id => (some id, false)
  | none => (env.regexApplicationId, true)

/-- viewAndDownloadApplication (lines 2199-2305), coarsely: if the
download button appears within the 60-attempt cap it is clicked, the
record is marked downloaded-via-fallback and the ledger entry marked
downloaded; otherwise the fallback-timeout message is recorded. -/
def viewAndDownloadApplication (ledger : LedgerState) (record : SitePlanRecord)
    (found : Bool) (now : String) :
    SitePlanRecord × LedgerState × List AgentEvent :=
  if found then
    ({ record with certificateDownloaded := true, downloadedViaFallback := true },
     updatePersistedApplicationDownloadStatus ledger record.plotNumber true now,
     [AgentEvent.downloadClick record.plotNumber])
  else
    ({ record with
        error := some (match record.error with
          | none => SpErr.fallbackTimeoutStandalone
          | some e => SpErr.seq e SpErr.fallbackTimeoutAppended) },
     ledger, [])

/-- Steps 6-15 of searchAndProcessPlot (lines 1331-1543): select and
DOM-verify the DARI wallet, extract and compare the amounts, and in live
mode click Pay Now, verify the post-payment page and attempt the
certificate download. -/
def sitePlanPaymentSection (paymentEnabled : Bool) (ledger : LedgerState)
    (plot : PlotData) (env : PlotEnv) (now : String) (record : SitePlanRecord)
    (events : List AgentEvent) :
    PlotStep (SitePlanRecord × LedgerState × List AgentEvent) :=
  if !env.dariWalletFound then
    PlotStep.done ({ record with error := some SpErr.walletOptionNotFound }, ledger, events)
  else if !env.dariWalletClickable then
    PlotStep.done ({ record with error := some SpErr.walletNotInteractive }, ledger, events)
  else if !env.walletSelectedVerified then
    PlotStep.done ({ record with error := some SpErr.walletSelectFailed }, ledger, events)
  else
    match env.walletBalance, env.paymentAmount with
    | some balance, some amount =>
      if balance ≥ amount then
        let record := { record with walletBalanceSufficient := true }
        if !paymentEnabled then
          PlotStep.done (record, ledger, events)
        else if !env.payNowFound then
          PlotStep.done ({ record with error := some SpErr.payNowNotFound }, ledger, events)
        else
          let events := events ++ [AgentEvent.payClick plot.plotNumber]
          if env.postPayError then
            PlotStep.done ({ record with error := some SpErr.paymentFailed }, ledger, events)
          else
            let record := { record with paid := true }
            match downloadCertificate env.download ledger record now with
            | (record2, ledger2, ev2, _) =>
              PlotStep.done (record2, ledger2, events ++ ev2)
      else
        PlotStep.done
          ({ record with
              walletBalanceSufficient := false,
              error := some (SpErr.insufficientBalance balance amount) },
           ledger, events)
    | _, _ =>
      PlotStep.done ({ record with error := some SpErr.extractPaymentInfoFailed }, ledger, events)

/-- Steps 9 and 4-5 of searchAndProcessPlot (lines 1012-1329): search by
plot number, guard against the gateway redirect, classify the results,
select the property, wait for the certificate page, then extract the
application id and pre-emptively write it to the ledger (line 1325)
before entering the payment section. -/
def searchAndProcessPlotNormal (paymentEnabled : Bool) (ledger : LedgerState)
    (plot : PlotData) (env : PlotEnv) (now : String) (record : SitePlanRecord) :
    PlotStep (SitePlanRecord × LedgerState × List AgentEvent) :=
  if env.postSearchRedirect then
    PlotStep.redirect
  else if env.noPropertyMessage then
    PlotStep.done ({ record with error := some SpErr.notOwned }, ledger, [])
  else if !env.proceedFound then
    PlotStep.done ({ record with error := some SpErr.proceedNotFound }, ledger, [])
  else if !env.certContentAppears then
    PlotStep.diverges
  else if env.postProceedUrlError then
    PlotStep.done ({ record with error := some SpErr.navFailedAfterProceed }, ledger, [])
  else
    match extractApplicationId env with
    | (extracted, fallbackUsed) =>
      let events := if fallbackUsed then [AgentEvent.regexFallback plot.plotNumber] else []
      match extracted with
      | some applicationId =>
        sitePlanPaymentSection paymentEnabled
          (addPersistedApplication ledger plot.plotNumber applicationId false now)
          plot env now
          { record with applicationId := some applicationId } events
      | none =>
        sitePlanPaymentSection paymentEnabled ledger plot env now record events

/-- searchAndProcessPlot (lines 957-1550) over one page-state
environment.  The pre-payment smart workflow (lines 981-1010) is guarded
by the hardcoded prePayCheckEnabled; on a ledger hit it marks the record
paid/pre-existing and tries the applications-list download, falling
through to the normal flow when that throws or does not download. -/
def searchAndProcessPlot (paymentEnabled : Bool) (ledger : LedgerState)
    (plot : PlotData) (env : PlotEnv) (now : String) :
    PlotStep (SitePlanRecord × LedgerState × List AgentEvent) :=
  let record := initRecord plot
  if prePayCheckEnabled then
    match mapLookup ledger.persistedApplications plot.plotNumber with
    | some persisted =>
      let record := { record with
        applicationId := some persisted.applicationId,
        paid := true,
        alreadyExistedInApplications := true }
      if env.smartThrows then
        searchAndProcessPlotNormal paymentEnabled ledger plot env now
          { record with alreadyExistedInApplications := false }
      else
        match viewAndDownloadApplication ledger record env.smartDownloadFound now with
        | (record2, ledger2, ev2) =>
          if record2.certificateDownloaded then
            PlotStep.done (record2,
              updatePersistedApplicationDownloadStatus ledger2 plot.plotNumber true now,
              ev2)
          else
            searchAndProcessPlotNormal paymentEnabled ledger2 plot env now record2
    | none => searchAndProcessPlotNormal paymentEnabled ledger plot env now record
  else
    searchAndProcessPlotNormal paymentEnabled ledger plot env now record

/-- Events of a completed pass. -/
def plotStepEvents (s : PlotStep (SitePlanRecord × LedgerState × List AgentEvent)) :
    List AgentEvent :=
  match s with
  | PlotStep.done (_, _, es) => es
  | _ => []

/-- Number of payment clicks in an event list. -/
def payCount (events : List AgentEvent) : Nat :=
  (events.filter fun e => match e with
    | AgentEvent.payClick _ => true
    | _ => false).length

/-- Number of regex-fallback extraction passes in an event list. -/
def fallbackCount (events : List AgentEvent) : Nat :=
  (events.filter fun e => match e with
    | AgentEvent.regexFallback _ => true
    | _ => false).length

/-- Happy-path page environment used by the C1 counterexample: the search
succeeds, the identifier extraction succeeds, the wallet is selected and
amply funded, Pay Now is present and the post-payment page shows no
error; the download button appears at the first observation. -/
def c1HappyEnv : PlotEnv :=
  { smartThrows := false
    smartDownloadFound := false
    postSearchRedirect := false
    noPropertyMessage := false
    proceedFound := true
    certContentAppears := true
    postProceedUrlError := false
    aiApplicationId := some "APP-NEW-1"
    regexApplicationId := none
    dariWalletFound := true
    dariWalletClickable := true
    walletSelectedVerified := true
    walletBalance := some 500
    paymentAmount := some 100
    payNowFound := true
    postPayError := false
    download := ⟨false, fun _ => false, fun j => j == 1, fun _ => false⟩ }

/-! ## Embedding of the affection-plan per-plot processor
(dari-affection-plan-agent.ts lines 600-1478 and 1636-1794) -/

/-- Error codes standing for the result.error message templates of
dari-affection-plan-agent.ts.  `plotNotFound` is the message of line 747,
`applicationIdNotFound` of line 1027, `parseFailure` of line 1113,
`insufficientBatch` of line 1164 (carrying the computed amounts), and
`insufficientPlot` of line 1191 (carrying the computed shortage). -/
inductive AffErr
  | plotNotFound
  | applicationIdNotFound
  | parseFailure
  | insufficientBatch (totalRequired balance : ℚ) (totalPlots : Nat)
  | insufficientPlot (shortage : ℚ)
deriving DecidableEq

/-- Interface PlotResult of the affection agent: the record pushed into
this.results for each attempted plot. -/
structure AffectionResult where
  plotNumber : String
  rowIndex : Nat
  applicationId : Option String
  paymentCompleted : Bool
  downloadCompleted : Bool
  error : Option AffErr
deriving DecidableEq

/-- The batch-abort error thrown at line 1167 of the affection agent:
`Insufficient balance: need <totalRequired> AED for <totalPlots> plots,
have <balance> AED. Add <shortage> AED and restart.`  The fields carry
the interpolated values. -/
structure BatchAbort where
  totalPlots : Nat
  totalRequired : ℚ
  balance : ℚ
  shortage : ℚ
deriving DecidableEq

/-- Classified page-intelligence results driving one call of
searchAndFilterPlot of the affection agent. -/
structure AffEnv where
  /-- Lines 721-730: page text or result set indicates the plot is not
  found / not owned. -/
  plotNotFound : Bool
  /-- Line 1004: pageContent.hasApplicationId together with a truthy
  pageContent.applicationId. -/
  hasApplicationId : Bool
  /-- The AI-extracted application id (pageContent.applicationId). -/
  aiApplicationId : Option String
  /-- Line 1012: the first match of the 14-or-more-digit regex over the
  raw page text, if any. -/
  regexApplicationId : Option String
  /-- Lines 1092-1096: parseFloat of the extracted wallet balance; none
  models NaN (the isNaN guard at line 1102). -/
  walletBalance : Option ℚ
  /-- Lines 1093-1096: parseFloat of the extracted payment amount. -/
  paymentAmount : Option ℚ
  /-- Lines 1212-1219: a clickable Pay now button was observed. -/
  payNowFound : Bool
  /-- Lines 1393-1403: the download button was found on the post-payment
  page. -/
  downloadButtonFound : Bool
  /-- Lines 1417-1450: the retry-wrapped download click succeeded. -/
  downloadClickOk : Bool

/-- STEP 12 (lines 1002-1032): the AI-extracted id when usable, otherwise
one pass of the regex fallback over the raw page text.  The Bool reports
whether the fallback ran. -/
def affExtractApplicationId (env : AffEnv) : Option String × Bool :=
  if env.hasApplicationId && env.aiApplicationId.isSome then
    (env.aiApplicationId, false)
  else
    (env.regexApplicationId, true)

/-- Mutable batch state of the affection agent: this.results plus the
instrumentation events. -/
structure AffState where
  results : List AffectionResult
  events : List AgentEvent
deriving DecidableEq

/-- STEPs 15-17 (lines 1201-1478): find and click Pay now (a missing
button returns without recording anything, line 1218), then await the
download page, click download when its button is found, and push the
result with paymentCompleted = true. -/
def affPaySection (st : AffState) (plot : PlotData) (env : AffEnv)
    (applicationId : Option String) : AffState × Option BatchAbort :=
  if !env.payNowFound then
    (st, none)
  else
    let st := { st with events := st.events ++ [AgentEvent.payClick plot.plotNumber] }
    let downloadSuccess := env.downloadButtonFound && env.downloadClickOk
    ({ st with
        results := st.results ++
          [⟨plot.plotNumber, plot.rowIndex, applicationId, true, downloadSuccess, none⟩] },
     none)

/-- searchAndFilterPlot (lines 600-1478): search and filter by plot
number, classify the results, extract the application id (with the
regex fallback), parse the amounts, run the batch-wide funds check on the
first plot (this.results.length === 0) or the per-plot check otherwise,
then pay and download.  `totalPlots` is this.plots.length.  The second
component of the result is the batch-abort error thrown at line 1167
(none when the call returned normally); every other abnormal outcome is
recorded in the pushed result instead. -/
def searchAndFilterPlot (totalPlots : Nat) (st : AffState) (plot : PlotData)
    (env : AffEnv) : AffState × Option BatchAbort :=
  if env.plotNotFound then
    ({ st with
        results := st.results ++
          [⟨plot.plotNumber, plot.rowIndex, none, false, false, some AffErr.plotNotFound⟩] },
     none)
  else
    match affExtractApplicationId env with
    | (extracted, fallbackUsed) =>
      let st := { st with
        events := st.events ++
          (if fallbackUsed then [AgentEvent.regexFallback plot.plotNumber] else []) }
      match extracted with
      | none =>
        ({ st with
            results := st.results ++
              [⟨plot.plotNumber, plot.rowIndex, none, false, false,
                some AffErr.applicationIdNotFound⟩] },
         none)
      | some applicationId =>
        match env.walletBalance, env.paymentAmount with
        | some balance, some amount =>
          if st.results.length == 0 then
            let totalRequired := amount * (totalPlots : ℚ)
            if balance < totalRequired then
              ({ st with
                  results := st.results ++
                    [⟨plot.plotNumber, plot.rowIndex, some applicationId, false, false,
                      some (AffErr.insufficientBatch totalRequired balance totalPlots)⟩] },
               some ⟨totalPlots, totalRequired, balance, totalRequired - balance⟩)
            else
              affPaySection st plot env (some applicationId)
          else
            if balance < amount then
              ({ st with
                  results := st.results ++
                    [⟨plot.plotNumber, plot.rowIndex, some applicationId, false, false,
                      some (AffErr.insufficientPlot (amount - balance))⟩] },
               none)
            else
              affPaySection st plot env (some applicationId)
        | _, _ =>
          ({ st with
              results := st.results ++
                [⟨plot.plotNumber, plot.rowIndex, some applicationId, false, false,
                  some AffErr.parseFailure⟩] },
           none)

/-- The plot loop of executeWorkflow (lines 1680-1732): process plots in
order; a batch-abort thrown by searchAndFilterPlot is re-thrown (lines
1693-1700), stopping the loop; any normal return continues with the next
plot. -/
def affProcessPlots (totalPlots : Nat) :
    AffState → List (PlotData × AffEnv) → AffState × Option BatchAbort
  | st, [] => (st, none)
  | st, (plot, env) :: rest =>
    match searchAndFilterPlot totalPlots st plot env with
    | (st2, none) => affProcessPlots totalPlots st2 rest
    | (st2, some abort) => (st2, some abort)

/-- executeWorkflow over a loaded plot list: this.plots.length is the
batch size used by the first-plot funds check. -/
def affExecuteWorkflow (plots : List (PlotData × AffEnv)) :
    AffState × Option BatchAbort :=
  affProcessPlots plots.length ⟨[], []⟩ plots

/-- Affection-plan environment of a plot that is not found in the portal. -/
def c2EnvNotFound : AffEnv :=
  ⟨true, false, none, none, none, none, false, false, false⟩

/-- Affection-plan environment of a plot that extracts id APP-2, sees
balance 150 against fee 100, and pays. -/
def c2EnvPays : AffEnv :=
  ⟨false, true, some "APP-2", none, some 150, some 100, true, true, true⟩

/-- First-plot environment of the spec scenario: balance 250, fee 100. -/
def c2FirstEnv : AffEnv :=
  ⟨false, true, some "APP-1", none, some 250, some 100, true, false, false⟩

/-- A completed pass outcome as an optional record. -/
def plotStepRecord (s : PlotStep (SitePlanRecord × LedgerState × List AgentEvent)) :
    Option SitePlanRecord :=
  match s with
  | PlotStep.done (r, _, _) => some r
  | _ => none

/-- Site-plan environment of the C5 counterexample: both the AI
extraction and the regex fallback yield no application id, everything
else succeeds and the wallet is amply funded. -/
def c5Env : PlotEnv :=
  { smartThrows := false
    smartDownloadFound := false
    postSearchRedirect := false
    noPropertyMessage := false
    proceedFound := true
    certContentAppears := true
    postProceedUrlError := false
    aiApplicationId := none
    regexApplicationId := none
    dariWalletFound := true
    dariWalletClickable := true
    walletSelectedVerified := true
    walletBalance := some 500
    paymentAmount := some 100
    payNowFound := true
    postPayError := false
    download := ⟨false, fun _ => false, fun j => j == 1, fun _ => false⟩ }

/-! ## Embedding of the authentication sequencer
(dari-site-plan-agent.ts lines 611-654 and executeWorkflow lines 2307-2350) -/

/-- Classified results driving waitForUAEPassApproval, indexed by the
1-based check attempt. -/
structure AuthEnv where
  /-- Line 632: the current URL no longer contains login, auth or
  uaepass at this attempt. -/
  urlLeftAuth : Nat → Bool
  /-- Lines 635-643: intelligentWaitUntilPageReady confirmed post-login
  indicators (profile, avatar, logout, account menu) at this attempt. -/
  loginIndicatorsVisible : Nat → Bool

/-- Line 619. -/
def MAX_WAIT_ATTEMPTS : Nat := 60

/-- The check loop of waitForUAEPassApproval (lines 624-645):
loginSuccessful becomes true only at an attempt where the URL has left
the auth domain AND the post-login indicators are confirmed; otherwise
the loop continues to the next attempt. -/
def authLoop (env : AuthEnv) : Nat → Nat → Bool
  | 0, _ => false
  | rem + 1, attempt =>
    if env.urlLeftAuth attempt && env.loginIndicatorsVisible attempt then true
    else authLoop env rem (attempt + 1)

/-- The message of the error thrown at line 648. -/
def loginTimeoutMsg : String :=
  "Login verification timeout. Please check if UAE Pass approval was completed."

/-- waitForUAEPassApproval (lines 611-654): run the capped check loop;
exhausting the cap without success throws. -/
def waitForUAEPassApproval (env : AuthEnv) : Except String Unit :=
  if authLoop env MAX_WAIT_ATTEMPTS 1 then Except.ok ()
  else Except.error loginTimeoutMsg

/-- The ordering of executeWorkflow (lines 2307-2330): the UAE Pass
approval wait runs before any plot processing, and its thrown error
propagates (the outer catch at line 2338 re-throws), so `runPlots`
(processAllPlots and processFailedDownloads) is reached only on
authentication success. -/
def executeWorkflowAuthGate (env : AuthEnv)
    (runPlots : Unit → List SitePlanRecord) :
    Except String (List SitePlanRecord) :=
  match waitForUAEPassApproval env with
  | Except.error e => Except.error e
  | Except.ok () => Except.ok (runPlots ())

/-- Auth environment for the C9 witness: the URL leaves the auth domain
at attempt 5 but the post-login indicators are never confirmed, so the
changed URL alone must not count as success. -/
def c9Env : AuthEnv := ⟨fun j => j == 5, fun _ => false⟩

/-! ## Theorems -/

theorem retryGo_zero {E A : Type} (fn : Nat → Except E A) (d b a : Nat) :
    retryGo fn d b 0 a = ⟨Except.error none, 0, []⟩ := rfl

theorem retryGo_succ_ok {E A : Type} {fn : Nat → Except E A} (d b : Nat)
    {a : Nat} {v : A} (k : Nat) (h : fn a = Except.ok v) :
    retryGo fn d b (k + 1) a = ⟨Except.ok v, 1, []⟩ := by
  cases k <;> · rw [retryGo, h]

theorem retryGo_one_err {E A : Type} {fn : Nat → Except E A} (d b : Nat)
    {a : Nat} {e : E} (h : fn a = Except.error e) :
    retryGo fn d b 1 a = ⟨Except.error (some e), 1, []⟩ := by
  rw [retryGo, h]

theorem retryGo_succ_err {E A : Type} {fn : Nat → Except E A} (d b : Nat)
    {a : Nat} {e : E} (k : Nat) (h : fn a = Except.error e) :
    retryGo fn d b (k + 2) a =
      ⟨(retryGo fn d b (k + 1) (a + 1)).result,
       (retryGo fn d b (k + 1) (a + 1)).calls + 1,
       d * b ^ (a - 1) :: (retryGo fn d b (k + 1) (a + 1)).sleeps⟩ := by
  rw [retryGo, h]

theorem retryGo_calls_le {E A : Type} (fn : Nat → Except E A) (d b : Nat) :
    ∀ k a, (retryGo fn d b k a).calls ≤ k := by
  intro k
  induction k with
  | zero => intro a; rw [retryGo_zero]
  | succ k ih =>
    intro a
    cases hfa : fn a with
    | ok v =>
      rw [retryGo_succ_ok d b k hfa]
      show 1 ≤ k + 1
      omega
    | error e =>
      cases k with
      | zero =>
        rw [retryGo_one_err d b hfa]
      | succ k' =>
        rw [retryGo_succ_err d b k' hfa]
        show (retryGo fn d b (k' + 1) (a + 1)).calls + 1 ≤ k' + 1 + 1
        exact Nat.succ_le_succ (ih (a + 1))

theorem retryGo_calls_pos {E A : Type} (fn : Nat → Except E A) (d b : Nat) :
    ∀ k a, 1 ≤ k → 1 ≤ (retryGo fn d b k a).calls := by
  intro k a hk
  cases k with
  | zero => omega
  | succ k =>
    cases hfa : fn a with
    | ok v => rw [retryGo_succ_ok d b k hfa]
    | error e =>
      cases k with
      | zero => rw [retryGo_one_err d b hfa]
      | succ k' =>
        rw [retryGo_succ_err d b k' hfa]
        show 1 ≤ (retryGo fn d b (k' + 1) (a + 1)).calls + 1
        omega

theorem retryGo_sleeps {E A : Type} (fn : Nat → Except E A) (d b : Nat) :
    ∀ k a, 1 ≤ a →
      (retryGo fn d b k a).sleeps =
        (List.range ((retryGo fn d b k a).calls - 1)).map
          (fun i => d * b ^ (a - 1 + i)) := by
  intro k
  induction k with
  | zero => intro a _; rw [retryGo_zero]; simp
  | succ k ih =>
    intro a ha
    cases hfa : fn a with
    | ok v => rw [retryGo_succ_ok d b k hfa]; simp
    | error e =>
      cases k with
      | zero => rw [retryGo_one_err d b hfa]; simp
      | succ k' =>
        rw [retryGo_succ_err d b k' hfa]
        have hpos : 1 ≤ (retryGo fn d b (k' + 1) (a + 1)).calls :=
          retryGo_calls_pos fn d b (k' + 1) (a + 1) (by omega)
        have hrest := ih (a + 1) (by omega)
        show d * b ^ (a - 1) :: (retryGo fn d b (k' + 1) (a + 1)).sleeps =
          (List.range ((retryGo fn d b (k' + 1) (a + 1)).calls + 1 - 1)).map
            (fun i => d * b ^ (a - 1 + i))
        have hc : (retryGo fn d b (k' + 1) (a + 1)).calls + 1 - 1 =
            ((retryGo fn d b (k' + 1) (a + 1)).calls - 1) + 1 := by omega
        rw [hrest, hc, List.range_succ_eq_map, List.map_cons, List.map_map]
        refine List.cons_eq_cons.mpr ⟨by norm_num, ?_⟩
        apply List.map_congr_left
        intro i _
        simp only [Function.comp_apply]
        have he : a + 1 - 1 + i = a - 1 + i.succ := by omega
        rw [he]

theorem retryGo_first_success {E A : Type} (fn : Nat → Except E A) (d b : Nat) :
    ∀ k a c v, a ≤ c → c < a + k →
      (∀ j, a ≤ j → j < c → ∃ er, fn j = Except.error er) →
      fn c = Except.ok v →
      (retryGo fn d b k a).result = Except.ok v ∧
        (retryGo fn d b k a).calls = c - a + 1 := by
  intro k
  induction k with
  | zero => intro a c v h1 h2 _ _; omega
  | succ k ih =>
    intro a c v h1 h2 hfail hok
    rcases Nat.eq_or_lt_of_le h1 with heq | hlt
    · rw [retryGo_succ_ok d b k (heq ▸ hok)]
      refine ⟨rfl, ?_⟩
      show 1 = c - a + 1
      omega
    · obtain ⟨er, her⟩ := hfail a (le_refl a) hlt
      cases k with
      | zero => omega
      | succ k' =>
        rw [retryGo_succ_err d b k' her]
        have hrec := ih (a + 1) c v (by omega) (by omega)
          (fun j hj1 hj2 => hfail j (by omega) hj2) hok
        refine ⟨hrec.1, ?_⟩
        show (retryGo fn d b (k' + 1) (a + 1)).calls + 1 = c - a + 1
        rw [hrec.2]
        omega

theorem retryGo_all_fail {E A : Type} (fn : Nat → Except E A) (d b : Nat) :
    ∀ k a e, 1 ≤ k →
      (∀ j, a ≤ j → j < a + k → ∃ er, fn j = Except.error er) →
      fn (a + k - 1) = Except.error e →
      (retryGo fn d b k a).result = Except.error (some e) ∧
        (retryGo fn d b k a).calls = k := by
  intro k
  induction k with
  | zero => intro a e hk _ _; omega
  | succ k ih =>
    intro a e _ hfail hlast
    cases k with
    | zero =>
      have ha : a + 1 - 1 = a := by omega
      rw [ha] at hlast
      rw [retryGo_one_err d b hlast]
      exact ⟨rfl, rfl⟩
    | succ k' =>
      obtain ⟨er, her⟩ := hfail a (le_refl a) (by omega)
      rw [retryGo_succ_err d b k' her]
      have hlast' : fn ((a + 1) + (k' + 1) - 1) = Except.error e := by
        have : (a + 1) + (k' + 1) - 1 = a + (k' + 1 + 1) - 1 := by omega
        rw [this]; exact hlast
      have hrec := ih (a + 1) e (by omega)
        (fun j hj1 hj2 => hfail j (by omega) (by omega)) hlast'
      refine ⟨hrec.1, ?_⟩
      show (retryGo fn d b (k' + 1) (a + 1)).calls + 1 = k' + 1 + 1
      rw [hrec.2]

/-- C8: retry invokes fn at most maxAttempts times, sleeps exactly
delayMs * backoff ^ (attempt - 1) after each failed non-final attempt (in
order, so the i-th recorded delay, 0-based, is delayMs * backoff ^ i),
returns the first successful result, and after all attempts fail it
rethrows the error of the final attempt. -/
theorem retry_contract {E A : Type} (fn : Nat → Except E A) (m d b : Nat) :
    (retryRun fn (m : Int) d b).calls ≤ m ∧
    (retryRun fn (m : Int) d b).sleeps =
      (List.range ((retryRun fn (m : Int) d b).calls - 1)).map
        (fun i => d * b ^ i) ∧
    (∀ c v, 1 ≤ c → c ≤ m → fn c = Except.ok v →
      (∀ j, 1 ≤ j → j < c → ∃ er, fn j = Except.error er) →
      (retryRun fn (m : Int) d b).result = Except.ok v ∧
        (retryRun fn (m : Int) d b).calls = c) ∧
    (∀ e, 1 ≤ m → fn m = Except.error e →
      (∀ j, 1 ≤ j → j ≤ m → ∃ er, fn j = Except.error er) →
      (retryRun fn (m : Int) d b).result = Except.error (some e) ∧
        (retryRun fn (m : Int) d b).calls = m) := by
  have hm : ((m : Int)).toNat = m := Int.toNat_natCast m
  refine ⟨?_, ?_, ?_, ?_⟩
  · simp only [retryRun, hm]
    exact retryGo_calls_le fn d b m 1
  · simp only [retryRun, hm]
    have := retryGo_sleeps fn d b m 1 (le_refl 1)
    simpa using this
  · intro c v hc1 hcm hok hfail
    simp only [retryRun, hm]
    have := retryGo_first_success fn d b m 1 c v hc1 (by omega) hfail hok
    exact ⟨this.1, by rw [this.2]; omega⟩
  · intro e hm1 hlast hfail
    simp only [retryRun, hm]
    have hlast' : fn (1 + m - 1) = Except.error e := by
      have h : 1 + m - 1 = m := by omega
      rw [h]; exact hlast
    exact retryGo_all_fail fn d b m 1 e hm1
      (fun j hj1 hj2 => hfail j hj1 (by omega)) hlast'

/-- Witness for C8 at fn = retryWitnessFn, maxAttempts = 3, delayMs = 100,
backoff = 2: the run returns the first success (attempt 2, value 7) and
made exactly 2 calls. -/
theorem retry_contract_witness :
    (retryRun retryWitnessFn (3 : Int) 100 2).result = Except.ok 7 ∧
      (retryRun retryWitnessFn (3 : Int) 100 2).calls = 2 :=
  (retry_contract retryWitnessFn 3 100 2).2.2.1 2 7
    (by omega) (by omega) (by simp [retryWitnessFn])
    (by
      intro j hj1 hj2
      have hj : j = 1 := by omega
      subst hj
      exact ⟨"boom", by simp [retryWitnessFn]⟩)

/-- C10: calling retry with maxAttempts ≤ 0 never invokes the wrapped
closure and throws the uninitialized lastError, a non-Error undefined
value (modelled as Except.error none). -/
theorem retry_nonpositive {E A : Type} (fn : Nat → Except E A)
    (m : Int) (d b : Nat) (hm : m ≤ 0) :
    (retryRun fn m d b).result = Except.error none ∧
      (retryRun fn m d b).calls = 0 := by
  have h0 : m.toNat = 0 := Int.toNat_of_nonpos hm
  rw [retryRun, h0, retryGo_zero]
  exact ⟨rfl, rfl⟩

/-- Witness for C10 at fn = retryWitnessFn and maxAttempts = 0: zero
invocations and a thrown undefined. -/
theorem retry_nonpositive_witness :
    (retryRun retryWitnessFn (0 : Int) 100 2).result = Except.error none ∧
      (retryRun retryWitnessFn (0 : Int) 100 2).calls = 0 :=
  retry_nonpositive retryWitnessFn 0 100 2 (by omega)

theorem mapLookup_set_self {V : Type} (m : List (String × V)) (k : String) (v : V) :
    mapLookup (mapSet m k v) k = some v := by
  induction m with
  | nil => simp [mapSet, mapLookup]
  | cons p rest ih =>
    obtain ⟨pk, pv⟩ := p
    by_cases h : pk = k
    · simp [mapSet, mapLookup, h]
    · simp [mapSet, mapLookup, h, ih]

theorem mapLookup_mem {V : Type} (m : List (String × V)) (k : String) (v : V)
    (h : mapLookup m k = some v) : (k, v) ∈ m := by
  induction m with
  | nil => simp [mapLookup] at h
  | cons p rest ih =>
    obtain ⟨pk, pv⟩ := p
    by_cases hk : pk = k
    · simp only [mapLookup, if_pos hk] at h
      have hv : pv = v := by injection h
      subst hk
      subst hv
      exact List.mem_cons_self _ _
    · simp only [mapLookup, if_neg hk] at h
      exact List.mem_cons_of_mem _ (ih h)

theorem mapSet_map_fst {V : Type} (m : List (String × V)) (k : String) (v : V) :
    (mapSet m k v).map Prod.fst =
      if k ∈ m.map Prod.fst then m.map Prod.fst else m.map Prod.fst ++ [k] := by
  induction m with
  | nil => simp [mapSet]
  | cons p rest ih =>
    obtain ⟨pk, pv⟩ := p
    by_cases h : pk = k
    · simp [mapSet, h]
    · have hne : ¬k = pk := fun hh => h hh.symm
      simp only [mapSet, if_neg h, List.map_cons, List.mem_cons, hne, false_or]
      rw [ih]
      by_cases hk : k ∈ rest.map Prod.fst <;> simp [hk]

theorem mapSet_nodup {V : Type} (m : List (String × V)) (k : String) (v : V)
    (h : (m.map Prod.fst).Nodup) : ((mapSet m k v).map Prod.fst).Nodup := by
  rw [mapSet_map_fst]
  by_cases hk : k ∈ m.map Prod.fst
  · simp [hk, h]
  · simp only [hk, if_false]
    rw [List.nodup_append]
    refine ⟨h, List.nodup_singleton k, ?_⟩
    intro a ha hak
    rw [List.mem_singleton] at hak
    subst hak
    exact hk ha

theorem mapSet_wf_entries (m : List (String × PersistedApplicationData))
    (k : String) (v : PersistedApplicationData)
    (hm : ∀ p ∈ m, p.2.plotNumber = p.1) (hv : v.plotNumber = k) :
    ∀ p ∈ mapSet m k v, p.2.plotNumber = p.1 := by
  induction m with
  | nil =>
    intro p hp
    simp only [mapSet, List.mem_singleton] at hp
    subst hp
    exact hv
  | cons q rest ih =>
    obtain ⟨qk, qv⟩ := q
    intro p hp
    by_cases h : qk = k
    · simp only [mapSet, if_pos h] at hp
      rcases List.mem_cons.mp hp with hp | hp
      · subst hp; exact hv
      · exact hm p (List.mem_cons_of_mem _ hp)
    · simp only [mapSet, if_neg h] at hp
      rcases List.mem_cons.mp hp with hp | hp
      · subst hp; exact hm (qk, qv) (List.mem_cons_self _ _)
      · exact ih (fun r hr => hm r (List.mem_cons_of_mem _ hr)) p hp

theorem mapSet_append_of_not_mem {V : Type} (m : List (String × V)) (k : String)
    (v : V) (h : k ∉ m.map Prod.fst) : mapSet m k v = m ++ [(k, v)] := by
  induction m with
  | nil => simp [mapSet]
  | cons p rest ih =>
    obtain ⟨pk, pv⟩ := p
    simp only [List.map_cons, List.mem_cons] at h
    push_neg at h
    have hne : ¬pk = k := fun hh => h.1 hh.symm
    simp [mapSet, hne, ih h.2]

theorem loadList_go (vs : List PersistedApplicationData) :
    ∀ m0 : List (String × PersistedApplicationData),
      (∀ v ∈ vs, v.plotNumber ∉ m0.map Prod.fst) →
      (vs.map PersistedApplicationData.plotNumber).Nodup →
      vs.foldl (fun m a => mapSet m a.plotNumber a) m0 =
        m0 ++ vs.map (fun v => (v.plotNumber, v)) := by
  induction vs with
  | nil => intro m0 _ _; simp
  | cons v vs ih =>
    intro m0 hdisj hnd
    simp only [List.foldl_cons]
    rw [mapSet_append_of_not_mem m0 v.plotNumber v
      (hdisj v (List.mem_cons_self v vs))]
    rw [ih (m0 ++ [(v.plotNumber, v)])
      (by
        intro w hw
        simp only [List.map_append, List.mem_append]
        push_neg
        refine ⟨hdisj w (List.mem_cons_of_mem v hw), ?_⟩
        simp only [List.map_cons, List.nodup_cons] at hnd
        simp only [List.map_cons, List.map_nil, List.mem_singleton]
        intro hww
        exact hnd.1 (hww ▸ List.mem_map_of_mem PersistedApplicationData.plotNumber hw))
      (by simp only [List.map_cons, List.nodup_cons] at hnd; exact hnd.2)]
    simp

theorem load_roundtrip (s : LedgerState) (hwf : LedgerWF s) :
    loadPersistedApplications (some (s.persistedApplications.map Prod.snd)) =
      s.persistedApplications := by
  obtain ⟨hkeys, hnd⟩ := hwf
  have hplots : (s.persistedApplications.map Prod.snd).map
      PersistedApplicationData.plotNumber = s.persistedApplications.map Prod.fst := by
    rw [List.map_map]
    apply List.map_congr_left
    intro p hp
    exact hkeys p hp
  simp only [loadPersistedApplications]
  rw [loadList_go _ [] (by simp) (by rw [hplots]; exact hnd)]
  simp only [List.nil_append, List.map_map]
  have hfun : (fun v : PersistedApplicationData => (v.plotNumber, v)) ∘ Prod.snd =
      fun p : String × PersistedApplicationData => (p.2.plotNumber, p.2) := rfl
  rw [hfun]
  conv_rhs => rw [← List.map_id s.persistedApplications]
  apply List.map_congr_left
  intro p hp
  have hk := hkeys p hp
  obtain ⟨pk, pv⟩ := p
  simp_all

/-- C3 counterexample: calling addPersistedApplication (the recordPayment
operation) for plot P1, which already has a ledger entry with
document-request identifier APP-OLD, silently replaces that entry with
one carrying the different identifier APP-NEW and a fresh payment date.
No guard, assertion, or loud log precedes the overwrite, contradicting
the claim that an entry is created only when absent. -/
theorem addPersistedApplication_overwrite_cex :
    mapLookup (ledgerMapOf (addPersistedApplication c3State "P1" "APP-NEW" false "t1")) "P1" =
      some ⟨"P1", "APP-NEW", "t1", false, "t1"⟩ ∧
    c3Entry0.applicationId ≠ "APP-NEW" ∧
    mapLookup (ledgerMapOf c3State) "P1" = some c3Entry0 := by
  refine ⟨?_, by decide, ?_⟩ <;> decide

/-- C3 amended: addPersistedApplication unconditionally Map.sets the
entry for the plot, so a call for a plot that already has an entry
silently replaces it with the new document-request identifier and a fresh
payment date (no assert or loud log exists in the function).  The
at-most-one-entry-per-plot invariant itself does hold: Map.set keeps the
key set duplicate-free. -/
theorem addPersistedApplication_always_overwrites (s : LedgerState)
    (plotNumber applicationId : String) (downloaded : Bool) (now : String)
    (hnd : (s.persistedApplications.map Prod.fst).Nodup) :
    mapLookup (ledgerMapOf (addPersistedApplication s plotNumber applicationId downloaded now))
        plotNumber =
      some ⟨plotNumber, applicationId, now, downloaded, now⟩ ∧
    ((ledgerMapOf (addPersistedApplication s plotNumber applicationId downloaded now)).map
        Prod.fst).Nodup := by
  constructor
  · simp only [ledgerMapOf, addPersistedApplication, savePersistedApplications]
    exact mapLookup_set_self _ _ _
  · simp only [ledgerMapOf, addPersistedApplication, savePersistedApplications]
    exact mapSet_nodup _ _ _ hnd

/-- Witness for the amended C3 at the concrete overwrite scenario. -/
theorem addPersistedApplication_always_overwrites_witness :
    mapLookup (ledgerMapOf (addPersistedApplication c3State "P1" "APP-NEW" true "t2")) "P1" =
      some ⟨"P1", "APP-NEW", "t2", true, "t2"⟩ ∧
    ((ledgerMapOf (addPersistedApplication c3State "P1" "APP-NEW" true "t2")).map
        Prod.fst).Nodup :=
  addPersistedApplication_always_overwrites c3State "P1" "APP-NEW" true "t2"
    (by decide)

theorem save_storage_serializes (s : LedgerState) :
    (savePersistedApplications s).storage =
      some ((savePersistedApplications s).persistedApplications.map Prod.snd) := rfl

/-- C4: every mutating ledger operation synchronously rewrites the full
durable JSON storage before returning: after addPersistedApplication
(recordPayment) the storage holds the serialized map and a freshly
constructed ledger loading that storage sees the new entry; after
updatePersistedApplicationDownloadStatus (markDownloaded) on an existing
entry the storage likewise holds the serialized map and a fresh load sees
the updated downloaded flag. -/
theorem ledger_write_through (s : LedgerState) (plotNumber applicationId now : String)
    (hwf : LedgerWF s) :
    ((addPersistedApplication s plotNumber applicationId false now).storage =
      some ((ledgerMapOf (addPersistedApplication s plotNumber applicationId false now)).map
        Prod.snd)) ∧
    (mapLookup
        (loadPersistedApplications
          (addPersistedApplication s plotNumber applicationId false now).storage)
        plotNumber =
      some ⟨plotNumber, applicationId, now, false, now⟩) ∧
    (∀ (e : PersistedApplicationData) (d : Bool) (n2 : String),
      mapLookup s.persistedApplications plotNumber = some e →
      ((updatePersistedApplicationDownloadStatus s plotNumber d n2).storage =
        some ((ledgerMapOf (updatePersistedApplicationDownloadStatus s plotNumber d n2)).map
          Prod.snd)) ∧
      (mapLookup
          (loadPersistedApplications
            (updatePersistedApplicationDownloadStatus s plotNumber d n2).storage)
          plotNumber =
        some { e with downloaded := d, lastChecked := n2 })) := by
  obtain ⟨hkeys, hnd⟩ := hwf
  refine ⟨rfl, ?_, ?_⟩
  · have hwf2 : LedgerWF (addPersistedApplication s plotNumber applicationId false now) := by
      constructor
      · exact mapSet_wf_entries _ _ _ hkeys rfl
      · exact mapSet_nodup _ _ _ hnd
    have hsto : (addPersistedApplication s plotNumber applicationId false now).storage =
        some ((addPersistedApplication s plotNumber applicationId false now)
          |>.persistedApplications.map Prod.snd) := rfl
    rw [hsto, load_roundtrip _ hwf2]
    simp only [addPersistedApplication, savePersistedApplications]
    exact mapLookup_set_self _ _ _
  · intro e d n2 he
    have hkey : e.plotNumber = plotNumber := hkeys _ (mapLookup_mem _ _ _ he)
    have hupd : updatePersistedApplicationDownloadStatus s plotNumber d n2 =
        savePersistedApplications
          { s with
            persistedApplications :=
              mapSet s.persistedApplications plotNumber
                { e with downloaded := d, lastChecked := n2 } } := by
      simp only [updatePersistedApplicationDownloadStatus, he]
    rw [hupd]
    have hwf2 : LedgerWF (savePersistedApplications
        { s with
          persistedApplications :=
            mapSet s.persistedApplications plotNumber
              { e with downloaded := d, lastChecked := n2 } }) := by
      constructor
      · exact mapSet_wf_entries _ _ _ hkeys (by simp [hkey])
      · exact mapSet_nodup _ _ _ hnd
    refine ⟨rfl, ?_⟩
    rw [save_storage_serializes, load_roundtrip _ hwf2]
    exact mapLookup_set_self _ _ _

/-- Witness for C4: starting from the empty ledger (missing file), record
a payment and verify that a fresh load of the written storage sees the
entry. -/
theorem ledger_write_through_witness :
    ((addPersistedApplication ⟨[], none⟩ "A-101" "REQ-1" false "t1").storage =
      some ((ledgerMapOf (addPersistedApplication ⟨[], none⟩ "A-101" "REQ-1" false "t1")).map
        Prod.snd)) ∧
    (mapLookup
        (loadPersistedApplications
          (addPersistedApplication ⟨[], none⟩ "A-101" "REQ-1" false "t1").storage)
        "A-101" =
      some ⟨"A-101", "REQ-1", "t1", false, "t1"⟩) :=
  ⟨(ledger_write_through ⟨[], none⟩ "A-101" "REQ-1" "t1" ⟨by simp, by simp⟩).1,
   (ledger_write_through ⟨[], none⟩ "A-101" "REQ-1" "t1" ⟨by simp, by simp⟩).2.1⟩

theorem downloadLoop_error (env : DownloadEnv) (r : SitePlanRecord) :
    ∀ rem count k, count < k → k ≤ count + rem →
      env.obsError k = true →
      (∀ j, count < j → j < k →
        env.obsError j = false ∧ env.obsDownload j = false ∧ env.urlError j = false) →
      downloadLoop env rem count r =
        ({ r with error := some SpErr.certGenerationFailed }, k, DlExit.errorReturn) := by
  intro rem
  induction rem with
  | zero => intro count k h1 h2 _ _; omega
  | succ rem ih =>
    intro count k h1 h2 herr hmin
    by_cases hk : k = count + 1
    · subst hk
      rw [downloadLoop]
      simp [herr]
    · have hflags := hmin (count + 1) (by omega) (by omega)
      rw [downloadLoop]
      simp only [hflags.1, hflags.2.1, hflags.2.2, Bool.false_eq_true, if_false]
      exact ih (count + 1) k (by omega) (by omega) herr
        (fun j hj1 hj2 => hmin j (by omega) hj2)

theorem downloadLoop_capped (env : DownloadEnv) (r : SitePlanRecord) :
    ∀ rem count,
      (∀ j, count < j → j ≤ count + rem →
        env.obsError j = false ∧ env.obsDownload j = false ∧ env.urlError j = false) →
      downloadLoop env rem count r = (r, count + rem, DlExit.capped) := by
  intro rem
  induction rem with
  | zero => intro count _; rfl
  | succ rem ih =>
    intro count hflags
    have hf := hflags (count + 1) (by omega) (by omega)
    rw [downloadLoop]
    simp only [hf.1, hf.2.1, hf.2.2, Bool.false_eq_true, if_false]
    have := ih (count + 1) (fun j hj1 hj2 => hflags j (by omega) (by omega))
    rw [this]
    have hn : count + 1 + rem = count + (rem + 1) := by omega
    rw [hn]

/-- C6: in the downloadCertificate observation loop, an explicit error
indicator observed at attempt k stops the poll immediately at attempt k
with the terminal record error (Certificate generation failed), not
continuing toward the 120-attempt cap; exhausting the 120-attempt cap is
not a throw: the record keeps its paid flag with download still pending
(only the button-never-appeared message is recorded, and the ledger is
untouched), and such a record satisfies the filter of the end-of-batch
fallback recovery pass processFailedDownloads, so it is retried there. -/
theorem downloadCertificate_poll (env : DownloadEnv) (ledger : LedgerState)
    (r0 : SitePlanRecord) (now : String)
    (hstart : env.startUrlError = false) :
    (∀ k, 1 ≤ k → k ≤ MAX_OBSERVATIONS → env.obsError k = true →
      (∀ j, 1 ≤ j → j < k →
        env.obsError j = false ∧ env.obsDownload j = false ∧ env.urlError j = false) →
      (downloadCertificate env ledger r0 now).1.error = some SpErr.certGenerationFailed ∧
      (downloadCertificate env ledger r0 now).2.2.2 = k ∧
      (downloadCertificate env ledger r0 now).1.certificateDownloaded =
        r0.certificateDownloaded) ∧
    ((∀ j, 1 ≤ j → j ≤ MAX_OBSERVATIONS →
        env.obsError j = false ∧ env.obsDownload j = false ∧ env.urlError j = false) →
      r0.error = none →
      (downloadCertificate env ledger r0 now).2.2.2 = MAX_OBSERVATIONS ∧
      (downloadCertificate env ledger r0 now).1.error = some SpErr.downloadDidNotAppear ∧
      (downloadCertificate env ledger r0 now).1.paid = r0.paid ∧
      (downloadCertificate env ledger r0 now).1.certificateDownloaded =
        r0.certificateDownloaded ∧
      (downloadCertificate env ledger r0 now).2.1 = ledger ∧
      (r0.paid = true → r0.certificateDownloaded = false →
        r0.applicationId.isSome = true →
        ∀ records : List SitePlanRecord,
          (downloadCertificate env ledger r0 now).1 ∈ records →
          (downloadCertificate env ledger r0 now).1 ∈
            processFailedDownloadsTargets records)) := by
  constructor
  · intro k hk1 hk2 herr hmin
    have hloop := downloadLoop_error env
      { r0 with
          downloadAttempts := r0.downloadAttempts + 1,
          lastDownloadAttemptTime := some now }
      MAX_OBSERVATIONS 0 k (by omega) (by omega) herr
      (fun j hj1 hj2 => hmin j hj1 hj2)
    simp only [downloadCertificate, hstart, Bool.false_eq_true, if_false, hloop]
    refine ⟨?_, ?_, ?_⟩ <;> (first | rfl | trivial)
  · intro hflags hr0
    have hloop := downloadLoop_capped env
      { r0 with
          downloadAttempts := r0.downloadAttempts + 1,
          lastDownloadAttemptTime := some now }
      MAX_OBSERVATIONS 0
      (fun j hj1 hj2 => hflags j hj1 hj2)
    simp only [downloadCertificate, hstart, Bool.false_eq_true, if_false, hloop]
    refine ⟨by first | rfl | trivial, ?_, by first | rfl | trivial,
      by first | rfl | trivial, by first | rfl | trivial, ?_⟩
    · show some (appendDownloadTimeout r0.error) = some SpErr.downloadDidNotAppear
      rw [hr0]
      rfl
    · intro hpaid hcert happ records hmem
      simp only [processFailedDownloadsTargets, List.mem_filter]
      refine ⟨hmem, ?_⟩
      show (r0.paid && !r0.certificateDownloaded && (r0.applicationId).isSome) = true
      rw [hpaid, hcert, happ]
      rfl

/-- Witness for C6: with an error indicator on attempt 3 the poll stops at
observation 3 with the terminal error; with no indicator at all the poll
runs exactly 120 observations, the record stays paid and undownloaded,
and it belongs to the recovery-pass filter output. -/
theorem downloadCertificate_poll_witness :
    (downloadCertificate c6ErrEnv ⟨[], none⟩ c6Record "t").1.error =
      some SpErr.certGenerationFailed ∧
    (downloadCertificate c6ErrEnv ⟨[], none⟩ c6Record "t").2.2.2 = 3 ∧
    (downloadCertificate c6QuietEnv ⟨[], none⟩ c6Record "t").2.2.2 = 120 ∧
    (downloadCertificate c6QuietEnv ⟨[], none⟩ c6Record "t").1.paid = true ∧
    (downloadCertificate c6QuietEnv ⟨[], none⟩ c6Record "t").1 ∈
      processFailedDownloadsTargets
        [(downloadCertificate c6QuietEnv ⟨[], none⟩ c6Record "t").1] := by
  have h1 := (downloadCertificate_poll c6ErrEnv ⟨[], none⟩ c6Record "t" rfl).1 3
    (by omega) (by norm_num [MAX_OBSERVATIONS]) rfl
    (by
      intro j hj1 hj2
      have : j = 1 ∨ j = 2 := by omega
      rcases this with h | h <;> subst h <;> exact ⟨rfl, rfl, rfl⟩)
  have h2 := (downloadCertificate_poll c6QuietEnv ⟨[], none⟩ c6Record "t" rfl).2
    (fun j _ _ => ⟨rfl, rfl, rfl⟩) rfl
  refine ⟨h1.1, h1.2.1, h2.1, ?_, ?_⟩
  · rw [h2.2.2.1]
    rfl
  · exact h2.2.2.2.2.2 rfl rfl rfl _ (List.mem_singleton_self _)

theorem downloadLoop_paid (env : DownloadEnv) :
    ∀ rem count r, ((downloadLoop env rem count r).1).paid = r.paid := by
  intro rem
  induction rem with
  | zero => intro count r; rfl
  | succ rem ih =>
    intro count r
    rw [downloadLoop]
    split_ifs <;> first | rfl | exact ih (count + 1) r

theorem downloadCertificate_paid (env : DownloadEnv) (ledger : LedgerState)
    (r : SitePlanRecord) (now : String) :
    (downloadCertificate env ledger r now).1.paid = r.paid := by
  simp only [downloadCertificate]
  split_ifs with h
  · rfl
  · rcases hdl : downloadLoop env MAX_OBSERVATIONS 0
      { r with
          downloadAttempts := r.downloadAttempts + 1,
          lastDownloadAttemptTime := some now } with ⟨r2, c2, ex⟩
    have hr2 : r2.paid = r.paid := by
      have hp := downloadLoop_paid env MAX_OBSERVATIONS 0
        { r with
            downloadAttempts := r.downloadAttempts + 1,
            lastDownloadAttemptTime := some now }
      rw [hdl] at hp
      exact hp
    cases ex <;> exact hr2

/-- C1 counterexample: plot P1 already has a persisted ledger entry
(c3State), yet processing it in live mode performs the payment action
(the Pay Now click) and marks the record paid, because the ledger
pre-check is gated on the hardcoded prePayCheckEnabled = false.  So a
second process run pays again for an already-paid plot. -/
theorem sitePlan_prePayCheck_cex :
    mapLookup c3State.persistedApplications "P1" = some c3Entry0 ∧
    AgentEvent.payClick "P1" ∈
      plotStepEvents (searchAndProcessPlot true c3State ⟨"P1", 3⟩ c1HappyEnv "t1") ∧
    payCount (plotStepEvents
      (searchAndProcessPlot true c3State ⟨"P1", 3⟩ c1HappyEnv "t1")) = 1 := by
  refine ⟨by decide, by decide, by decide⟩

theorem sitePlanPaymentSection_pays (ledger : LedgerState) (plot : PlotData)
    (env : PlotEnv) (now : String) (record : SitePlanRecord)
    (events : List AgentEvent) (b a : ℚ)
    (h6 : env.dariWalletFound = true) (h7 : env.dariWalletClickable = true)
    (h8 : env.walletSelectedVerified = true)
    (h9 : env.walletBalance = some b) (h10 : env.paymentAmount = some a)
    (hge : b ≥ a) (h12 : env.payNowFound = true) (h13 : env.postPayError = false) :
    ∃ r l es, sitePlanPaymentSection true ledger plot env now record events =
      PlotStep.done (r, l, es) ∧ r.paid = true ∧
      AgentEvent.payClick plot.plotNumber ∈ es := by
  simp only [sitePlanPaymentSection, h6, h7, h8, h9, h10, h12, h13, hge,
    Bool.not_true, Bool.false_eq_true, if_false, if_true, Bool.not_false,
    ite_true, ite_false]
  rcases hdl : downloadCertificate env.download ledger
    { record with walletBalanceSufficient := true, paid := true } now
    with ⟨r2, l2, ev2, c2⟩
  refine ⟨r2, l2, events ++ [AgentEvent.payClick plot.plotNumber] ++ ev2, rfl, ?_, ?_⟩
  · have hp := downloadCertificate_paid env.download ledger
      { record with walletBalanceSufficient := true, paid := true } now
    rw [hdl] at hp
    exact hp
  · simp

/-- C1 amended: the pre-payment ledger check is dead code because
prePayCheckEnabled is hardcoded false, so even for a plot identifier that
already has a ledger entry the processor runs the normal
search/select/identify/pay flow: whenever that flow reaches the payment
step it clicks Pay Now and the record reaches the paid state, regardless
of the existing entry.  The skip-to-applications-list path exists in the
source but is never taken. -/
theorem sitePlan_prePayCheck_disabled (ledger : LedgerState) (plot : PlotData)
    (env : PlotEnv) (now : String) (entry : PersistedApplicationData)
    (b a : ℚ)
    (hentry : mapLookup ledger.persistedApplications plot.plotNumber = some entry)
    (h1 : env.postSearchRedirect = false) (h2 : env.noPropertyMessage = false)
    (h3 : env.proceedFound = true) (h4 : env.certContentAppears = true)
    (h5 : env.postProceedUrlError = false)
    (h6 : env.dariWalletFound = true) (h7 : env.dariWalletClickable = true)
    (h8 : env.walletSelectedVerified = true)
    (h9 : env.walletBalance = some b) (h10 : env.paymentAmount = some a)
    (h11 : a ≤ b) (h12 : env.payNowFound = true) (h13 : env.postPayError = false) :
    prePayCheckEnabled = false ∧
    AgentEvent.payClick plot.plotNumber ∈
      plotStepEvents (searchAndProcessPlot true ledger plot env now) ∧
    (∃ r l es, searchAndProcessPlot true ledger plot env now =
      PlotStep.done (r, l, es) ∧ r.paid = true) := by
  have hge : b ≥ a := h11
  have hmain : ∃ r l es, searchAndProcessPlot true ledger plot env now =
      PlotStep.done (r, l, es) ∧ r.paid = true ∧
      AgentEvent.payClick plot.plotNumber ∈ es := by
    simp only [searchAndProcessPlot, prePayCheckEnabled, Bool.false_eq_true,
      if_false, searchAndProcessPlotNormal, h1, h2, h3, h4, h5, Bool.not_true,
      Bool.not_false, if_true, ite_true, ite_false]
    rcases hext : extractApplicationId env with ⟨extracted, fb⟩
    cases extracted with
    | some appId =>
      exact sitePlanPaymentSection_pays _ plot env now _ _ b a
        h6 h7 h8 h9 h10 hge h12 h13
    | none =>
      exact sitePlanPaymentSection_pays _ plot env now _ _ b a
        h6 h7 h8 h9 h10 hge h12 h13
  obtain ⟨r, l, es, heq, hpaid, hmem⟩ := hmain
  refine ⟨rfl, ?_, r, l, es, heq, hpaid⟩
  rw [heq]
  exact hmem

/-- Witness for the amended C1: the concrete scenario of the
counterexample, via the general theorem. -/
theorem sitePlan_prePayCheck_disabled_witness :
    prePayCheckEnabled = false ∧
    AgentEvent.payClick "P1" ∈
      plotStepEvents (searchAndProcessPlot true c3State ⟨"P1", 3⟩ c1HappyEnv "t1") ∧
    (∃ r l es, searchAndProcessPlot true c3State ⟨"P1", 3⟩ c1HappyEnv "t1" =
      PlotStep.done (r, l, es) ∧ r.paid = true) :=
  sitePlan_prePayCheck_disabled c3State ⟨"P1", 3⟩ c1HappyEnv "t1" c3Entry0
    500 100 (by decide) rfl rfl rfl rfl rfl rfl rfl rfl rfl rfl (by norm_num) rfl rfl

/-- C2 counterexample: batch of N = 2 plots with per-plot fee F = 100 and
observed wallet balance B = 150 < N x F = 200, yet one pay action is
invoked and the batch does not abort: plot 1 exits early as not-found,
which records a result, so plot 2 is no longer the "first plot"
(this.results.length is not 0) and only the per-plot check 150 >= 100
runs; the batch-wide affordability check is skipped entirely. -/
theorem batch_affordability_cex :
    (150 : ℚ) < ((2 : Nat) : ℚ) * 100 ∧
    payCount (affExecuteWorkflow
      [(⟨"A-1", 2⟩, c2EnvNotFound), (⟨"A-2", 3⟩, c2EnvPays)]).1.events = 1 ∧
    (affExecuteWorkflow
      [(⟨"A-1", 2⟩, c2EnvNotFound), (⟨"A-2", 3⟩, c2EnvPays)]).2 = none := by
  refine ⟨by norm_num, by decide, by decide⟩

/-- C2 amended: the batch-wide affordability check runs only on the first
plot that reaches funds validation while no result has yet been recorded.
When that first plot observes balance B and fee F with B < N x F (N the
loaded plot count), no pay action is invoked for any plot, the loop halts
with only that one result recorded, and the thrown abort error carries
exactly the shortfall N x F - B.  (If an earlier plot records any result
before a funds check happens - for example not-found - the batch-wide
check is skipped for the whole run, see the counterexample.) -/
theorem batch_affordability_aborts_before_pay (p1 : PlotData) (e1 : AffEnv)
    (rest : List (PlotData × AffEnv)) (B F : ℚ) (id1 : String)
    (h1 : e1.plotNotFound = false)
    (h2 : e1.hasApplicationId = true) (h3 : e1.aiApplicationId = some id1)
    (h4 : e1.walletBalance = some B) (h5 : e1.paymentAmount = some F)
    (hB : B < F * ((rest.length + 1 : Nat) : ℚ)) :
    ∃ abort : BatchAbort,
      (affExecuteWorkflow ((p1, e1) :: rest)).2 = some abort ∧
      abort.totalPlots = rest.length + 1 ∧
      abort.totalRequired = ((rest.length + 1 : Nat) : ℚ) * F ∧
      abort.balance = B ∧
      abort.shortage = ((rest.length + 1 : Nat) : ℚ) * F - B ∧
      payCount (affExecuteWorkflow ((p1, e1) :: rest)).1.events = 0 ∧
      (affExecuteWorkflow ((p1, e1) :: rest)).1.results =
        [⟨p1.plotNumber, p1.rowIndex, some id1, false, false,
          some (AffErr.insufficientBatch (F * ((rest.length + 1 : Nat) : ℚ)) B
            (rest.length + 1))⟩] := by
  simp only [affExecuteWorkflow, List.length_cons, affProcessPlots,
    searchAndFilterPlot, affExtractApplicationId, h1, h2, h3, h4, h5,
    Option.isSome_some, Bool.and_self, Bool.false_eq_true, if_false, if_true,
    ite_true, ite_false, List.append_nil, List.nil_append, List.length_nil,
    beq_self_eq_true, hB]
  refine ⟨⟨rest.length + 1, F * ((rest.length + 1 : Nat) : ℚ), B,
      F * ((rest.length + 1 : Nat) : ℚ) - B⟩, ?_, ?_, ?_, ?_, ?_, ?_, ?_⟩ <;>
    first
      | rfl
      | trivial
      | rw [mul_comm]

/-- Witness for the amended C2 at the spec scenario: 3 plots at fee 100
with balance 250 abort with shortfall 3 x 100 - 250 = 50, zero pay
actions, and only the first plot recorded. -/
theorem batch_affordability_aborts_before_pay_witness :
    ∃ abort : BatchAbort,
      (affExecuteWorkflow [(⟨"A-1", 2⟩, c2FirstEnv), (⟨"A-2", 3⟩, c2FirstEnv),
        (⟨"A-3", 4⟩, c2FirstEnv)]).2 = some abort ∧
      abort.shortage = 50 ∧
      payCount (affExecuteWorkflow [(⟨"A-1", 2⟩, c2FirstEnv), (⟨"A-2", 3⟩, c2FirstEnv),
        (⟨"A-3", 4⟩, c2FirstEnv)]).1.events = 0 := by
  obtain ⟨abort, hab, _, _, _, hshort, hpay, _⟩ :=
    batch_affordability_aborts_before_pay ⟨"A-1", 2⟩ c2FirstEnv
      [(⟨"A-2", 3⟩, c2FirstEnv), (⟨"A-3", 4⟩, c2FirstEnv)] 250 100 "APP-1"
      rfl rfl rfl rfl rfl (by norm_num)
  refine ⟨abort, hab, ?_, hpay⟩
  rw [hshort]
  norm_num

theorem searchAndFilterPlot_pays (totalPlots : Nat) (st : AffState)
    (plot : PlotData) (env : AffEnv) (b a : ℚ) (id : String)
    (h1 : env.plotNotFound = false) (h2 : env.hasApplicationId = true)
    (h3 : env.aiApplicationId = some id) (h4 : env.walletBalance = some b)
    (h5 : env.paymentAmount = some a) (hpay : env.payNowFound = true)
    (hfunds : if st.results.length == 0 then ¬b < a * (totalPlots : ℚ) else ¬b < a) :
    searchAndFilterPlot totalPlots st plot env =
      ({ st with
          results := st.results ++
            [⟨plot.plotNumber, plot.rowIndex, some id, true,
              env.downloadButtonFound && env.downloadClickOk, none⟩],
          events := st.events ++ [AgentEvent.payClick plot.plotNumber] }, none) := by
  cases hres : (st.results.length == 0) with
  | true =>
    rw [hres] at hfunds
    simp at hfunds
    simp [searchAndFilterPlot, affExtractApplicationId, affPaySection,
      h1, h2, h3, h4, h5, hpay, hres, hfunds]
  | false =>
    rw [hres] at hfunds
    simp at hfunds
    simp [searchAndFilterPlot, affExtractApplicationId, affPaySection,
      h1, h2, h3, h4, h5, hpay, hres, hfunds]

theorem searchAndFilterPlot_insufficient (totalPlots : Nat) (st : AffState)
    (plot : PlotData) (env : AffEnv) (b a : ℚ) (id : String)
    (h1 : env.plotNotFound = false) (h2 : env.hasApplicationId = true)
    (h3 : env.aiApplicationId = some id) (h4 : env.walletBalance = some b)
    (h5 : env.paymentAmount = some a)
    (hres : (st.results.length == 0) = false) (hba : b < a) :
    searchAndFilterPlot totalPlots st plot env =
      ({ st with
          results := st.results ++
            [⟨plot.plotNumber, plot.rowIndex, some id, false, false,
              some (AffErr.insufficientPlot (a - b))⟩] }, none) := by
  simp [searchAndFilterPlot, affExtractApplicationId, h1, h2, h3, h4, h5, hres, hba]

/-- C7: a non-first plot whose observed balance is below the per-plot fee
(after the first plot passed the batch-wide check) is recorded alone as
insufficient-funds with no pay action of its own, and the loop continues:
in a 3-plot batch, plots 1 and 3 still pay and complete normally and no
batch abort is raised. -/
theorem perPlot_insufficient_does_not_abort
    (p1 p2 p3 : PlotData) (e1 e2 e3 : AffEnv)
    (id1 id2 id3 : String) (b1 a1 b2 a2 b3 a3 : ℚ)
    (h11 : e1.plotNotFound = false) (h12 : e1.hasApplicationId = true)
    (h13 : e1.aiApplicationId = some id1) (h14 : e1.walletBalance = some b1)
    (h15 : e1.paymentAmount = some a1) (h16 : e1.payNowFound = true)
    (h17 : ¬b1 < a1 * ((3 : Nat) : ℚ))
    (h21 : e2.plotNotFound = false) (h22 : e2.hasApplicationId = true)
    (h23 : e2.aiApplicationId = some id2) (h24 : e2.walletBalance = some b2)
    (h25 : e2.paymentAmount = some a2) (h26 : b2 < a2)
    (h31 : e3.plotNotFound = false) (h32 : e3.hasApplicationId = true)
    (h33 : e3.aiApplicationId = some id3) (h34 : e3.walletBalance = some b3)
    (h35 : e3.paymentAmount = some a3) (h36 : e3.payNowFound = true)
    (h37 : ¬b3 < a3) :
    affExecuteWorkflow [(p1, e1), (p2, e2), (p3, e3)] =
      (⟨[⟨p1.plotNumber, p1.rowIndex, some id1, true,
          e1.downloadButtonFound && e1.downloadClickOk, none⟩,
         ⟨p2.plotNumber, p2.rowIndex, some id2, false, false,
          some (AffErr.insufficientPlot (a2 - b2))⟩,
         ⟨p3.plotNumber, p3.rowIndex, some id3, true,
          e3.downloadButtonFound && e3.downloadClickOk, none⟩],
        [AgentEvent.payClick p1.plotNumber, AgentEvent.payClick p3.plotNumber]⟩,
       none) := by
  have s1 := searchAndFilterPlot_pays 3 ⟨[], []⟩ p1 e1 b1 a1 id1
    h11 h12 h13 h14 h15 h16 (by simpa using h17)
  have s2 := searchAndFilterPlot_insufficient 3
    ⟨[⟨p1.plotNumber, p1.rowIndex, some id1, true,
        e1.downloadButtonFound && e1.downloadClickOk, none⟩],
      [AgentEvent.payClick p1.plotNumber]⟩ p2 e2 b2 a2 id2
    h21 h22 h23 h24 h25 rfl h26
  have s3 := searchAndFilterPlot_pays 3
    ⟨[⟨p1.plotNumber, p1.rowIndex, some id1, true,
        e1.downloadButtonFound && e1.downloadClickOk, none⟩,
      ⟨p2.plotNumber, p2.rowIndex, some id2, false, false,
        some (AffErr.insufficientPlot (a2 - b2))⟩],
      [AgentEvent.payClick p1.plotNumber]⟩ p3 e3 b3 a3 id3
    h31 h32 h33 h34 h35 h36 (by simpa using h37)
  simp only [affExecuteWorkflow, List.length_cons, List.length_nil]
  simp only [affProcessPlots, s1, s2, s3, List.nil_append, List.cons_append,
    List.append_nil]

/-- Witness for C7: plot 2 of 3 sees balance 40 below fee 100 after the
batch check passed on plot 1 (balance 500 covers 3 x 100); plots 1 and 3
pay, plot 2 alone is recorded as insufficient, and no abort occurs. -/
theorem perPlot_insufficient_does_not_abort_witness :
    affExecuteWorkflow
      [(⟨"A-1", 2⟩, ⟨false, true, some "I1", none, some 500, some 100, true, true, true⟩),
       (⟨"A-2", 3⟩, ⟨false, true, some "I2", none, some 40, some 100, true, true, true⟩),
       (⟨"A-3", 4⟩, ⟨false, true, some "I3", none, some 400, some 100, true, true, true⟩)] =
      (⟨[⟨"A-1", 2, some "I1", true, true, none⟩,
         ⟨"A-2", 3, some "I2", false, false, some (AffErr.insufficientPlot (100 - 40))⟩,
         ⟨"A-3", 4, some "I3", true, true, none⟩],
        [AgentEvent.payClick "A-1", AgentEvent.payClick "A-3"]⟩,
       none) := by
  have h := perPlot_insufficient_does_not_abort
    ⟨"A-1", 2⟩ ⟨"A-2", 3⟩ ⟨"A-3", 4⟩
    ⟨false, true, some "I1", none, some 500, some 100, true, true, true⟩
    ⟨false, true, some "I2", none, some 40, some 100, true, true, true⟩
    ⟨false, true, some "I3", none, some 400, some 100, true, true, true⟩
    "I1" "I2" "I3" 500 100 40 100 400 100
    rfl rfl rfl rfl rfl rfl (by norm_num) rfl rfl rfl rfl rfl (by norm_num)
    rfl rfl rfl rfl rfl rfl (by norm_num)
  simpa using h

theorem downloadLoop_appId (env : DownloadEnv) :
    ∀ rem count r, ((downloadLoop env rem count r).1).applicationId = r.applicationId := by
  intro rem
  induction rem with
  | zero => intro count r; rfl
  | succ rem ih =>
    intro count r
    rw [downloadLoop]
    split_ifs <;> first | rfl | exact ih (count + 1) r

theorem downloadCertificate_appId (env : DownloadEnv) (ledger : LedgerState)
    (r : SitePlanRecord) (now : String) :
    (downloadCertificate env ledger r now).1.applicationId = r.applicationId := by
  simp only [downloadCertificate]
  split_ifs with h
  · rfl
  · rcases hdl : downloadLoop env MAX_OBSERVATIONS 0
      { r with
          downloadAttempts := r.downloadAttempts + 1,
          lastDownloadAttemptTime := some now } with ⟨r2, c2, ex⟩
    have hr2 : r2.applicationId = r.applicationId := by
      have hp := downloadLoop_appId env MAX_OBSERVATIONS 0
        { r with
            downloadAttempts := r.downloadAttempts + 1,
            lastDownloadAttemptTime := some now }
      rw [hdl] at hp
      exact hp
    cases ex <;> exact hr2

theorem downloadCertificate_no_fallback (env : DownloadEnv) (ledger : LedgerState)
    (r : SitePlanRecord) (now : String) :
    fallbackCount ((downloadCertificate env ledger r now).2.2.1) = 0 := by
  simp only [downloadCertificate]
  split_ifs with h
  · rfl
  · rcases hdl : downloadLoop env MAX_OBSERVATIONS 0
      { r with
          downloadAttempts := r.downloadAttempts + 1,
          lastDownloadAttemptTime := some now } with ⟨r2, c2, ex⟩
    cases ex <;> rfl

theorem sitePlanPaymentSection_spec (ledger : LedgerState) (plot : PlotData)
    (env : PlotEnv) (now : String) (record : SitePlanRecord)
    (events : List AgentEvent) (b a : ℚ)
    (h6 : env.dariWalletFound = true) (h7 : env.dariWalletClickable = true)
    (h8 : env.walletSelectedVerified = true)
    (h9 : env.walletBalance = some b) (h10 : env.paymentAmount = some a)
    (hge : b ≥ a) (h12 : env.payNowFound = true) (h13 : env.postPayError = false) :
    ∃ r l es2, sitePlanPaymentSection true ledger plot env now record events =
      PlotStep.done (r, l, events ++ [AgentEvent.payClick plot.plotNumber] ++ es2) ∧
      r.paid = true ∧ r.applicationId = record.applicationId ∧
      fallbackCount es2 = 0 := by
  simp only [sitePlanPaymentSection, h6, h7, h8, h9, h10, h12, h13, hge,
    Bool.not_true, Bool.false_eq_true, if_false, if_true, Bool.not_false,
    ite_true, ite_false]
  rcases hdl : downloadCertificate env.download ledger
    { record with walletBalanceSufficient := true, paid := true } now
    with ⟨r2, l2, ev2, c2⟩
  refine ⟨r2, l2, ev2, rfl, ?_, ?_, ?_⟩
  · have hp := downloadCertificate_paid env.download ledger
      { record with walletBalanceSufficient := true, paid := true } now
    rw [hdl] at hp
    exact hp
  · have hp := downloadCertificate_appId env.download ledger
      { record with walletBalanceSufficient := true, paid := true } now
    rw [hdl] at hp
    exact hp
  · have hp := downloadCertificate_no_fallback env.download ledger
      { record with walletBalanceSufficient := true, paid := true } now
    rw [hdl] at hp
    exact hp

/-- C5 counterexample: in the site-plan agent, when both the AI
extraction and the regex fallback yield no application id, the plot does
NOT terminate as an extraction failure: the flow logs and continues into
the payment section (line 1327: "Will continue with payment section"),
and the payment action is performed with applicationId still null.  The
fallback did run exactly once. -/
theorem extraction_failure_still_pays_cex :
    AgentEvent.payClick "P9" ∈
      plotStepEvents (searchAndProcessPlot true ⟨[], none⟩ ⟨"P9", 4⟩ c5Env "t1") ∧
    fallbackCount
      (plotStepEvents (searchAndProcessPlot true ⟨[], none⟩ ⟨"P9", 4⟩ c5Env "t1")) = 1 ∧
    (plotStepRecord (searchAndProcessPlot true ⟨[], none⟩ ⟨"P9", 4⟩ c5Env "t1")).map
      (fun r => (r.applicationId, r.paid)) = some (none, true) := by
  refine ⟨by decide, by decide, by decide⟩

/-- C5 amended: when the AI extraction yields nothing usable the
regex-over-raw-page-text fallback is attempted exactly once in both
agents; when it also yields nothing, the affection-plan agent terminates
the plot with the Application ID not found error and no payment, while
the site-plan agent merely logs the failure and continues into the
payment section, so payment can still be attempted with a null
application id. -/
theorem extraction_fallback_once (totalPlots : Nat) (st : AffState)
    (aplot : PlotData) (aenv : AffEnv)
    (ledger : LedgerState) (plot : PlotData) (env : PlotEnv) (now : String)
    (b a : ℚ)
    (ha1 : aenv.plotNotFound = false) (ha2 : aenv.hasApplicationId = false)
    (ha3 : aenv.regexApplicationId = none)
    (hs0 : env.aiApplicationId = none) (hs0b : env.regexApplicationId = none)
    (h1 : env.postSearchRedirect = false) (h2 : env.noPropertyMessage = false)
    (h3 : env.proceedFound = true) (h4 : env.certContentAppears = true)
    (h5 : env.postProceedUrlError = false)
    (h6 : env.dariWalletFound = true) (h7 : env.dariWalletClickable = true)
    (h8 : env.walletSelectedVerified = true)
    (h9 : env.walletBalance = some b) (h10 : env.paymentAmount = some a)
    (h11 : a ≤ b) (h12 : env.payNowFound = true) (h13 : env.postPayError = false) :
    searchAndFilterPlot totalPlots st aplot aenv =
      ({ st with
          results := st.results ++
            [⟨aplot.plotNumber, aplot.rowIndex, none, false, false,
              some AffErr.applicationIdNotFound⟩],
          events := st.events ++ [AgentEvent.regexFallback aplot.plotNumber] }, none) ∧
    (∃ r l es, searchAndProcessPlot true ledger plot env now =
      PlotStep.done (r, l, es) ∧ r.applicationId = none ∧ r.paid = true ∧
      AgentEvent.payClick plot.plotNumber ∈ es ∧ fallbackCount es = 1) := by
  constructor
  · simp [searchAndFilterPlot, affExtractApplicationId, ha1, ha2, ha3]
  · have hge : b ≥ a := h11
    have hext : extractApplicationId env = (none, true) := by
      simp [extractApplicationId, hs0, hs0b]
    simp only [searchAndProcessPlot, prePayCheckEnabled, Bool.false_eq_true,
      if_false, searchAndProcessPlotNormal, h1, h2, h3, h4, h5, Bool.not_true,
      Bool.not_false, if_true, ite_true, ite_false, hext]
    obtain ⟨r, l, es2, heq, hpaid, happ, hfb⟩ :=
      sitePlanPaymentSection_spec ledger plot env now (initRecord plot)
        [AgentEvent.regexFallback plot.plotNumber] b a h6 h7 h8 h9 h10 hge h12 h13
    rw [heq]
    refine ⟨r, l, _, rfl, ?_, hpaid, ?_, ?_⟩
    · rw [happ]
      rfl
    · simp
    · simp [fallbackCount, List.filter_append] at hfb ⊢
      exact hfb

/-- Witness for the amended C5: concrete instantiation of both halves. -/
theorem extraction_fallback_once_witness :
    searchAndFilterPlot 2 ⟨[], []⟩ ⟨"B-1", 5⟩
        ⟨false, false, none, none, some 10, some 10, true, false, false⟩ =
      (⟨[⟨"B-1", 5, none, false, false, some AffErr.applicationIdNotFound⟩],
        [AgentEvent.regexFallback "B-1"]⟩, none) ∧
    (∃ r l es, searchAndProcessPlot true ⟨[], none⟩ ⟨"P9", 4⟩ c5Env "t1" =
      PlotStep.done (r, l, es) ∧ r.applicationId = none ∧ r.paid = true ∧
      AgentEvent.payClick "P9" ∈ es ∧ fallbackCount es = 1) := by
  have h := extraction_fallback_once 2 ⟨[], []⟩ ⟨"B-1", 5⟩
    ⟨false, false, none, none, some 10, some 10, true, false, false⟩
    ⟨[], none⟩ ⟨"P9", 4⟩ c5Env "t1" 500 100
    rfl rfl rfl rfl rfl rfl rfl rfl rfl rfl rfl rfl rfl rfl rfl
    (by norm_num) rfl rfl
  refine ⟨?_, h.2⟩
  have h1 := h.1
  simpa using h1

theorem authLoop_iff (env : AuthEnv) :
    ∀ rem a, authLoop env rem a = true ↔
      ∃ j, a ≤ j ∧ j < a + rem ∧
        (env.urlLeftAuth j && env.loginIndicatorsVisible j) = true := by
  intro rem
  induction rem with
  | zero =>
    intro a
    simp only [authLoop]
    constructor
    · intro h; exact absurd h (by simp)
    · rintro ⟨j, hj1, hj2, _⟩; omega
  | succ rem ih =>
    intro a
    rw [authLoop]
    by_cases hc : (env.urlLeftAuth a && env.loginIndicatorsVisible a) = true
    · simp only [hc, if_true]
      constructor
      · intro _; exact ⟨a, le_refl a, by omega, hc⟩
      · intro _; trivial
    · simp only [hc, if_false, Bool.false_eq_true]
      rw [ih (a + 1)]
      constructor
      · rintro ⟨j, hj1, hj2, hj3⟩
        exact ⟨j, by omega, by omega, hj3⟩
      · rintro ⟨j, hj1, hj2, hj3⟩
        refine ⟨j, ?_, by omega, hj3⟩
        rcases Nat.eq_or_lt_of_le hj1 with heq | hlt
        · exact absurd (heq ▸ hj3) hc
        · omega

/-- C9: login is declared successful only when, at some attempt within
the 60-attempt cap, the URL has left the auth domain AND the post-login
indicators are confirmed; if no attempt satisfies both, the wait throws
the login-verification-timeout error and executeWorkflow fails before any
plot processing (the result is the error regardless of what the plot
phase would produce). -/
theorem waitForUAEPassApproval_requires_both (env : AuthEnv)
    (runPlots : Unit → List SitePlanRecord) :
    (waitForUAEPassApproval env = Except.ok () ↔
      ∃ j, 1 ≤ j ∧ j ≤ 60 ∧ env.urlLeftAuth j = true ∧
        env.loginIndicatorsVisible j = true) ∧
    ((∀ j, 1 ≤ j → j ≤ 60 →
        ¬(env.urlLeftAuth j = true ∧ env.loginIndicatorsVisible j = true)) →
      waitForUAEPassApproval env = Except.error loginTimeoutMsg ∧
      executeWorkflowAuthGate env runPlots = Except.error loginTimeoutMsg ∧
      ∀ runPlots2, executeWorkflowAuthGate env runPlots2 =
        executeWorkflowAuthGate env runPlots) := by
  have hiff : authLoop env MAX_WAIT_ATTEMPTS 1 = true ↔
      ∃ j, 1 ≤ j ∧ j ≤ 60 ∧ env.urlLeftAuth j = true ∧
        env.loginIndicatorsVisible j = true := by
    rw [authLoop_iff env MAX_WAIT_ATTEMPTS 1]
    constructor
    · rintro ⟨j, hj1, hj2, hj3⟩
      rw [Bool.and_eq_true] at hj3
      refine ⟨j, hj1, ?_, hj3.1, hj3.2⟩
      have h60 : MAX_WAIT_ATTEMPTS = 60 := rfl
      omega
    · rintro ⟨j, hj1, hj2, hj3, hj4⟩
      refine ⟨j, hj1, ?_, by rw [Bool.and_eq_true]; exact ⟨hj3, hj4⟩⟩
      have h60 : MAX_WAIT_ATTEMPTS = 60 := rfl
      omega
  constructor
  · rw [waitForUAEPassApproval]
    cases hl : authLoop env MAX_WAIT_ATTEMPTS 1 with
    | true =>
      simp only [if_true]
      rw [← hiff]
      simp [hl]
    | false =>
      simp only [Bool.false_eq_true, if_false]
      rw [← hiff]
      simp [hl, loginTimeoutMsg]
  · intro hnone
    have hfalse : authLoop env MAX_WAIT_ATTEMPTS 1 = false := by
      cases hl : authLoop env MAX_WAIT_ATTEMPTS 1 with
      | false => rfl
      | true =>
        obtain ⟨j, hj1, hj2, hj3, hj4⟩ := hiff.mp hl
        exact absurd ⟨hj3, hj4⟩ (hnone j hj1 hj2)
    have hwait : waitForUAEPassApproval env = Except.error loginTimeoutMsg := by
      rw [waitForUAEPassApproval, hfalse]
      simp
    refine ⟨hwait, ?_, ?_⟩
    · rw [executeWorkflowAuthGate, hwait]
    · intro runPlots2
      rw [executeWorkflowAuthGate, executeWorkflowAuthGate, hwait]

/-- Witness for C9: with a changed URL but no post-login indicators the
wait throws the timeout error and the workflow fails before any plot is
processed. -/
theorem waitForUAEPassApproval_requires_both_witness :
    waitForUAEPassApproval c9Env = Except.error loginTimeoutMsg ∧
    executeWorkflowAuthGate c9Env (fun _ => []) =
      Except.error loginTimeoutMsg := by
  have h := (waitForUAEPassApproval_requires_both c9Env (fun _ => [])).2
    (by
      intro j h1 h2
      rintro ⟨hu, hi⟩
      simp [c9Env] at hi)
  exact ⟨h.1, h.2.1⟩
